import Mathlib

/-!
# HESA REST API — shallow embedding

A shallow embedding of the HESA-REST-API Flask application
(`src/models.py`, `src/schemas.py`, `src/controllers.py`,
`src/error_handlers.py`) and proofs about its claims.

Modelling conventions:
* The relational store is a `List` of rows per table; SQLite assigns
  autoincrement row ids as `max existing id + 1`.
* Path keys are modelled post-coercion as `Int` (SQLite integer-affinity
  comparison of the text path parameter against the integer key column).
* A request body is a typed record of `Option` fields: `some v` means the
  field is present (after marshmallow type coercion) and `unknownFields`
  records whether the body carries a field not in the schema (marshmallow
  rejects unknown fields).
* A handler returns an `Outcome`: either a normal `Response` or an
  uncaught Python exception (`raised`) carrying `str(e)`, which the
  application-level generic handler `handle_exception` turns into
  `500 {"error": str(e)}`.
* Store failures that cannot be derived from the data (connection loss,
  injected faults as in the test suite's mocks) are modelled by a
  `storeRaises : Bool` fault parameter on the handlers whose `except`
  clauses the claims are about; duplicate-primary-key insertion failures
  are modelled from the data itself.
-/

namespace Hesa

/-! ## Data model (`src/models.py`) -/

/-- Source: `HEI` row: composite primary key `(UKPRN, he_name)`; `region` is
`nullable=False`; `lat`/`lon` are `nullable=True`. -/
structure HEI where
  UKPRN : Int
  he_name : String
  region : String
  lat : Option String := none
  lon : Option String := none
deriving Repr, DecidableEq

/-- Source: `Entry` row: single-column integer primary key `entry_id`
(autoincrement); all other columns are declared non-optional
(`nullable=False`); `(UKPRN, he_name)` is a composite foreign key into
`hei` (not enforced by the SQLite store, which keeps
`PRAGMA foreign_keys` off). -/
structure Entry where
  entry_id : Int
  academic_year : String
  classification : String
  category_marker : String
  category : String
  value : String
  UKPRN : Int
  he_name : String
deriving Repr, DecidableEq

/-- Source: `User` ORM instance. `password_hash` is a `nullable=False` mapped
column, `none` while unset; `password` is NOT a mapped column — assigning
it (as `User.__init__` does) creates a transient Python attribute that is
never persisted. -/
structure User where
  email : String
  password_hash : Option String := none
  password : Option String := none
deriving Repr, DecidableEq

/-- Source: `User.__init__(self, email, password)`: sets `self.email = email` and
`self.password = password`. It does not touch `password_hash`. -/
def User.init (email password : String) : User :=
  { email := email, password := some password }

/-- Source: `User.set_password`: `self.password_hash = generate_password_hash(password)`.
The werkzeug hash function is abstracted as the parameter `gph`. -/
def User.set_password (gph : String → String) (u : User) (password : String) : User :=
  { u with password_hash := some (gph password) }

/-- Source: `User.check_password`: `check_password_hash(self.password_hash, password)`.
The werkzeug comparison is abstracted as `cph`; calling it with an unset
`password_hash` raises, modelled as `none`. -/
def User.check_password (cph : String → String → Bool) (u : User) (password : String) :
    Option Bool :=
  match u.password_hash with
  | some h => some (cph h password)
  | none => none

/-! ## Serialization layer (`src/schemas.py`)

`HEISchema` / `EntrySchema` are `SQLAlchemyAutoSchema`s with
`load_instance=True`, `include_fk=True`. A column is a required load field
iff it is `nullable=False`, has no default and is not the table's
autoincrement column; so for `hei` the fields `UKPRN`, `he_name`,
`region` are required, and for `entry` everything but the autoincrement
`entry_id` is required. Unknown fields raise a `ValidationError`. -/

/-- JSON body for an HEI request, after marshmallow's type coercion:
`some v` iff the field is present. -/
structure HeiJson where
  UKPRN : Option Int := none
  he_name : Option String := none
  region : Option String := none
  lat : Option (Option String) := none
  lon : Option (Option String) := none
  unknownFields : Bool := false
deriving Repr, DecidableEq

/-- Source: `hei_schema.load(json)` in full mode (POST/PUT): required
fields `UKPRN`, `he_name`, `region` must be present and unknown fields
fail validation (`none`), checks that precede instance creation. Because
the schema sets `load_instance=True` with the session, `make_instance`
then looks the body's full primary key `(UKPRN, he_name)` up in the
store: when a row matches, that persistent row is adopted and only the
submitted fields are overwritten — absent `lat`/`lon` keep the adopted
row's old values; otherwise a fresh transient instance is built and
absent `lat`/`lon` are `None`. -/
def heiLoad (store : List HEI) (j : HeiJson) : Option HEI :=
  if j.unknownFields then none
  else
    match j.UKPRN, j.he_name, j.region with
    | some u, some n, some r =>
        match store.find? (fun x => x.UKPRN == u && x.he_name == n) with
        | some row =>
            some { UKPRN := u, he_name := n, region := r,
                   lat := j.lat.getD row.lat, lon := j.lon.getD row.lon }
        | none =>
            some { UKPRN := u, he_name := n, region := r,
                   lat := j.lat.getD none, lon := j.lon.getD none }
    | _, _, _ => none

/-- The instance a partial-mode load yields: fields present in the body
are applied onto the found instance, absent fields keep the instance's
values. -/
def heiPatched (j : HeiJson) (inst : HEI) : HEI :=
  { UKPRN := j.UKPRN.getD inst.UKPRN,
    he_name := j.he_name.getD inst.he_name,
    region := j.region.getD inst.region,
    lat := j.lat.getD inst.lat,
    lon := j.lon.getD inst.lon }

/-- Source: `hei_schema.load(json, instance=inst, partial=True)` (PATCH):
partial application onto the found instance; unknown fields fail
validation. -/
def heiLoadPartial (j : HeiJson) (inst : HEI) : Option HEI :=
  if j.unknownFields then none else some (heiPatched j inst)

/-- JSON body for an Entry request, after marshmallow's type coercion. -/
structure EntryJson where
  entry_id : Option Int := none
  academic_year : Option String := none
  classification : Option String := none
  category_marker : Option String := none
  category : Option String := none
  value : Option String := none
  UKPRN : Option Int := none
  he_name : Option String := none
  unknownFields : Bool := false
deriving Repr, DecidableEq

/-- Transient `Entry` instance produced by a full-mode load: the
autoincrement primary key `entry_id` may still be unset. -/
structure EntryNew where
  entry_id : Option Int := none
  academic_year : String
  classification : String
  category_marker : String
  category : String
  value : String
  UKPRN : Int
  he_name : String
deriving Repr, DecidableEq

/-- The transient instance with its (assigned or provided) row id. -/
def EntryNew.assign (e : EntryNew) (i : Int) : Entry :=
  { entry_id := i, academic_year := e.academic_year,
    classification := e.classification, category_marker := e.category_marker,
    category := e.category, value := e.value, UKPRN := e.UKPRN,
    he_name := e.he_name }

/-- Source: `entry_schema.load(json)` in full mode (POST/PUT): all columns but the
autoincrement `entry_id` are required; unknown fields fail validation.
With `load_instance=True`, a body whose `entry_id` matches an existing
row makes `make_instance` adopt that persistent row — but since every
non-key column is required, the adopted row's columns are all overwritten
with the body's values, so the loaded column values are the body's either
way; what adoption changes (an `add`/`merge` on it updates the existing
row instead of inserting) is carried by `entryMerge`. -/
def entryLoad (j : EntryJson) : Option EntryNew :=
  if j.unknownFields then none
  else
    match j.academic_year, j.classification, j.category_marker, j.category,
        j.value, j.UKPRN, j.he_name with
    | some ay, some cl, some cm, some c, some v, some u, some n =>
        some { entry_id := j.entry_id, academic_year := ay,
               classification := cl, category_marker := cm, category := c,
               value := v, UKPRN := u, he_name := n }
    | _, _, _, _, _, _, _ => none

/-- The instance a partial-mode Entry load yields. -/
def entryPatched (j : EntryJson) (inst : Entry) : Entry :=
  { entry_id := j.entry_id.getD inst.entry_id,
    academic_year := j.academic_year.getD inst.academic_year,
    classification := j.classification.getD inst.classification,
    category_marker := j.category_marker.getD inst.category_marker,
    category := j.category.getD inst.category,
    value := j.value.getD inst.value,
    UKPRN := j.UKPRN.getD inst.UKPRN,
    he_name := j.he_name.getD inst.he_name }

/-- Source: `entry_schema.load(json, instance=inst, partial=True)` (PATCH). -/
def entryLoadPartial (j : EntryJson) (inst : Entry) : Option Entry :=
  if j.unknownFields then none else some (entryPatched j inst)

/-! ## Store primitives -/

/-- Result of `db.session.execute(select(...)).scalar_one()`:
zero matching rows raise `NoResultFound`, two or more raise
`MultipleResultsFound`; both are `SQLAlchemyError`s but neither is a
subclass of the other. -/
inductive Lookup (α : Type) where
  | noResult : Lookup α
  | found : α → Lookup α
  | multiple : Lookup α
deriving Repr, DecidableEq

/-- Source: `scalar_one()` over the list of matching rows. -/
def scalarOne {α : Type} : List α → Lookup α
  | [] => .noResult
  | [a] => .found a
  | _ :: _ :: _ => .multiple

/-- Source: `select(HEI).filter(HEI.UKPRN == ukprn)` then `scalar_one()`. -/
def heiByUkprn (store : List HEI) (ukprn : Int) : Lookup HEI :=
  scalarOne (store.filter (fun h => h.UKPRN == ukprn))

/-- Source: `select(Entry).filter(Entry.entry_id == id1)` then `scalar_one()`. -/
def entryById (store : List Entry) (id1 : Int) : Lookup Entry :=
  scalarOne (store.filter (fun e => e.entry_id == id1))

/-- SQLite's OFFSET/LIMIT: a negative offset acts as 0, a negative limit
means no limit. -/
def sqliteSlice {α : Type} (rows : List α) (offset limit : Int) : List α :=
  let dropped := rows.drop offset.toNat
  if limit < 0 then dropped else dropped.take limit.toNat

/-- The SQLite rowid assigned to an autoincrement insert: one more than
the largest rowid currently in use, or 1 on an empty table. -/
def nextRowId (store : List Entry) : Int :=
  match store.map (fun e => e.entry_id) with
  | [] => 1
  | i :: is => is.foldl max i + 1

/-- Does the `hei` table already hold the primary key `(u, n)`? -/
def hasHeiKey (store : List HEI) (u : Int) (n : String) : Bool :=
  store.any (fun h => h.UKPRN == u && h.he_name == n)

/-- Source: `db.session.merge(hei_update)` then `commit()`: update in place the
row with the instance's primary key `(UKPRN, he_name)` when it exists,
otherwise insert the instance. -/
def heiMerge (store : List HEI) (upd : HEI) : List HEI :=
  if hasHeiKey store upd.UKPRN upd.he_name then
    store.map (fun h =>
      if h.UKPRN == upd.UKPRN && h.he_name == upd.he_name then upd else h)
  else store ++ [upd]

/-- Commit of an Entry instance that reaches the store through
`add`/`merge`: a set `entry_id` updates the row holding it (the adopted
or merged persistent row) or inserts when it is free; an unset `entry_id`
inserts with a fresh autoincrement rowid. The passed instance itself is
never written back by `merge` — the message-side id is tracked
separately (`entryAssignedId`). -/
def entryMerge (store : List Entry) (e : EntryNew) : List Entry :=
  match e.entry_id with
  | some i =>
      if store.any (fun x => x.entry_id == i) then
        store.map (fun x => if x.entry_id == i then e.assign i else x)
      else store ++ [e.assign i]
  | none => store ++ [e.assign (nextRowId store)]

/-- The id the committed row ends up under: the body's `entry_id` when
set, the fresh autoincrement rowid otherwise. `add_entry` reads this off
the added instance after the commit (autoincrement writes into an
`add`-ed instance); `merge` does not write it back into its argument. -/
def entryAssignedId (store : List Entry) (e : EntryNew) : Int :=
  e.entry_id.getD (nextRowId store)

/-- Python string interpolation of an optional integer column:
`"None"` when the attribute is unset. -/
def pyStrOptInt : Option Int → String
  | some i => toString i
  | none => "None"

/-- Commit of a mutated persistent row (the instance a partial-mode load
mutated in place): the row the lookup found is updated in place — an
UPDATE of that row, renaming it when key columns were resubmitted
changed. -/
def updateRow {α : Type} [BEq α] (store : List α) (old upd : α) : List α :=
  store.map (fun x => if x == old then upd else x)

/-- Does committing the found HEI row mutated to `upd` violate the
primary-key constraint — i.e. does another row already hold the mutated
composite key? (SQLite raises `IntegrityError` on the UPDATE then.) -/
def heiUpdateConflict (store : List HEI) (old upd : HEI) : Bool :=
  store.any (fun x =>
    !(x == old) && x.UKPRN == upd.UKPRN && x.he_name == upd.he_name)

/-- Entry analogue of `heiUpdateConflict`, keyed on `entry_id`. -/
def entryUpdateConflict (store : List Entry) (old upd : Entry) : Bool :=
  store.any (fun x => !(x == old) && x.entry_id == upd.entry_id)

/-! ## HTTP responses and the generic exception handler
(`src/error_handlers.py`) -/

/-- JSON response bodies the handlers produce. -/
inductive Body where
  | message : String → Body
  | error : String → Body
  | heiJson : HEI → Body
  | heiList : List HEI → Body
  | entryJson : Entry → Body
  | entryList : List Entry → Body
deriving Repr, DecidableEq

structure Response where
  status : Nat
  body : Body
deriving Repr, DecidableEq

/-- What a handler invocation does to the world: a normal response, or an
uncaught (non-HTTP) Python exception carrying `str(e)`; either way the
table state after the request. -/
inductive Outcome (σ : Type) where
  | ok : Response → σ → Outcome σ
  | raised : String → σ → Outcome σ
deriving Repr, DecidableEq

/-- Source: `handle_exception` (`@app.errorhandler(Exception)`): an uncaught
non-HTTP exception becomes `500 {"error": str(e)}`; a normal response
passes through. -/
def handleException {σ : Type} : Outcome σ → Response × σ
  | .ok r s => (r, s)
  | .raised m s => ({ status := 500, body := .error m }, s)

/-- Source: `str(e)` for SQLAlchemy's `MultipleResultsFound`. -/
def multipleResultsMsg : String :=
  "Multiple rows were returned when exactly one was required"

/-- The generic 500 body every handler's own `except` clauses use. -/
def internalErrorMsg : String :=
  "An Internal Server Error occurred. Please try again later."

/-- Source: `str(e)` for the `ValueError` raised by `int(s)` on a non-numeric
string (Python additionally quotes the literal; the quotes are elided). -/
def intParseErrorMsg (s : String) : String :=
  "invalid literal for int() with base 10: " ++ s

/-- Decimal digits accumulator for `pyInt?`: `none` while no digit has
been read, so that a bare sign or an empty string fails. -/
def parseDigits : List Char → Option Nat → Option Nat
  | [], acc => acc
  | c :: cs, acc =>
      if c.isDigit then
        parseDigits cs (some ((acc.getD 0) * 10 + (c.toNat - 48)))
      else none

/-- Python's `int(s)` on a decimal string: an optional leading minus then
at least one digit, otherwise a `ValueError` (`none`). (Python's `int`
additionally strips blanks and accepts a leading plus — corner
conventions not modelled.) -/
def pyInt? (s : String) : Option Int :=
  match s.data with
  | [] => none
  | c :: cs =>
      if c = '-' then (parseDigits cs none).map (fun n => -(n : Int))
      else (parseDigits (c :: cs) none).map (fun n => (n : Int))

/-- Source: `int(request.args.get(name, dflt))`: absent parameter gives the
integer default, a present parameter is parsed by `int(...)`, raising
`ValueError` on failure. -/
def parseArg (raw : Option String) (dflt : Int) : Except String Int :=
  match raw with
  | none => .ok dflt
  | some s =>
      match pyInt? s with
      | some i => .ok i
      | none => .error (intParseErrorMsg s)

/-! ## HEI handlers (`src/controllers.py`) -/

/-- Source: `GET /hei` (`get_heis`): parse `page` (default 1) and `per_page`
(default 10) from the query string — the surrounding `try` catches only
`SQLAlchemyError`, so a `ValueError` from `int(...)` escapes the handler
(`raised`); compute `offset = (page - 1) * per_page` and return the
OFFSET/LIMIT slice serialized as a JSON array. -/
def get_heis (store : List HEI) (pageRaw perPageRaw : Option String) :
    Outcome (List HEI) :=
  match parseArg pageRaw 1 with
  | .error m => .raised m store
  | .ok page =>
      match parseArg perPageRaw 10 with
      | .error m => .raised m store
      | .ok per_page =>
          let offset := (page - 1) * per_page
          .ok ⟨200, .heiList (sqliteSlice store offset per_page)⟩ store

/-- Source: `GET /hei/<ukprn>` (`get_hei_using_ukprn`): `scalar_one()` lookup by
`UKPRN`; only `NoResultFound` is caught (404), `MultipleResultsFound`
escapes to the generic handler. -/
def get_hei_using_ukprn (store : List HEI) (ukprn : Int) : Outcome (List HEI) :=
  match heiByUkprn store ukprn with
  | .found h => .ok ⟨200, .heiJson h⟩ store
  | .noResult =>
      .ok ⟨404, .message ("No result found for UKPRN: " ++ toString ukprn)⟩ store
  | .multiple => .raised multipleResultsMsg store

/-- Source: `POST /hei` (`add_hei`): full-mode load; `ValidationError` → 400
before any instance is created. A body whose `(UKPRN, he_name)` already
exists adopts that row (`load_instance=True`), so `add` is a no-op on the
persistent instance and the commit UPDATEs it; a fresh key inserts.
Either way 200 with the message naming `hei.he_name` — both commit paths
are `heiMerge`. (The handler's 500 branch fires only on store faults
such as a lost connection, not modelled here.) -/
def add_hei (store : List HEI) (body : HeiJson) : Outcome (List HEI) :=
  match heiLoad store body with
  | none => .ok ⟨400, .message "The HEI details failed validation."⟩ store
  | some hei =>
      .ok ⟨200, .message ("HEI " ++ hei.he_name ++ " added successfully")⟩
        (heiMerge store hei)

/-- Source: `DELETE /hei/<ukprn>` (`delete_hei_using_ukprn`): the whole body sits
in one `try ... except exc.SQLAlchemyError`, so `NoResultFound`,
`MultipleResultsFound` and any store failure during delete/commit
(modelled by `storeRaises`) all produce the same
404 `HEI with UKPRN <ukprn> not found.`; on success the message names
`hei.UKPRN` and the row is removed. -/
def delete_hei_using_ukprn (storeRaises : Bool) (store : List HEI) (ukprn : Int) :
    Outcome (List HEI) :=
  match heiByUkprn store ukprn with
  | .found h =>
      if storeRaises then
        .ok ⟨404, .message ("HEI with UKPRN " ++ toString ukprn ++ " not found.")⟩ store
      else
        .ok ⟨200, .message ("HEI " ++ toString h.UKPRN ++ " deleted successfully")⟩
          (store.eraseP (fun x => x.UKPRN == ukprn))
  | .noResult =>
      .ok ⟨404, .message ("HEI with UKPRN " ++ toString ukprn ++ " not found.")⟩ store
  | .multiple =>
      .ok ⟨404, .message ("HEI with UKPRN " ++ toString ukprn ++ " not found.")⟩ store

inductive Method where
  | PUT
  | PATCH
deriving Repr, DecidableEq

/-- Source: `HEI(UKPRN=ukprn)` — the instance `hei_update` synthesizes for a PUT
to a missing key: only the path key is set, every other column unset. -/
structure HEIInst where
  UKPRN : Option Int := none
  he_name : Option String := none
  region : Option String := none
  lat : Option String := none
  lon : Option String := none
deriving Repr, DecidableEq

def heiSynth (ukprn : Int) : HEIInst := { UKPRN := some ukprn }

def HEI.toInst (h : HEI) : HEIInst :=
  { UKPRN := some h.UKPRN, he_name := some h.he_name, region := some h.region,
    lat := h.lat, lon := h.lon }

/-- Tail of `hei_update`'s PUT path: `loaded` is the full-mode load
result (adopting the body-key row when it exists); `ValidationError` →
400, store failure at merge/commit → 500, otherwise merge + commit and
answer `HEI with UKPRN <hei_update.UKPRN> updated successfully` — the key
of the *loaded* instance, not the path. `inst` (the found or synthesized
`hei`) is only compared against the loaded key for logging. -/
def hei_update_tail (storeRaises : Bool) (store : List HEI) (inst : HEIInst)
    (loaded : Option HEI) : Outcome (List HEI) :=
  match loaded with
  | none => .ok ⟨400, .message "The HEI details failed validation."⟩ store
  | some upd =>
      let _logKeyChanged := inst.UKPRN != some upd.UKPRN
      if storeRaises then .ok ⟨500, .message internalErrorMsg⟩ store
      else
        .ok ⟨200, .message ("HEI with UKPRN " ++ toString upd.UKPRN ++
              " updated successfully")⟩ (heiMerge store upd)

/-- Source: `PUT/PATCH /hei/<ukprn>` (`hei_update`): `scalar_one()` lookup whose
`except` clause catches only `NoResultFound` — on absence PUT synthesizes
`HEI(UKPRN=ukprn)` and PATCH answers 404; `MultipleResultsFound` escapes.
PUT loads the body in full mode (no instance argument, so the body-key
row is adopted when it exists) and merges. PATCH loads in partial mode
against the found instance, mutating that persistent row in place, so
the `merge` call is a no-op and the commit UPDATEs the found row —
renaming it when key columns were resubmitted changed, and raising
`IntegrityError` (→ 500) when the new key collides with another row. -/
def hei_update (method : Method) (storeRaises : Bool) (store : List HEI)
    (ukprn : Int) (body : HeiJson) : Outcome (List HEI) :=
  match heiByUkprn store ukprn, method with
  | .multiple, _ => .raised multipleResultsMsg store
  | .noResult, .PATCH =>
      .ok ⟨404, .message ("No result found for UKPRN: " ++ toString ukprn)⟩ store
  | .noResult, .PUT =>
      hei_update_tail storeRaises store (heiSynth ukprn) (heiLoad store body)
  | .found h, .PUT =>
      hei_update_tail storeRaises store h.toInst (heiLoad store body)
  | .found h, .PATCH =>
      match heiLoadPartial body h with
      | none => .ok ⟨400, .message "The HEI details failed validation."⟩ store
      | some upd =>
          if storeRaises then .ok ⟨500, .message internalErrorMsg⟩ store
          else if heiUpdateConflict store h upd then
            .ok ⟨500, .message internalErrorMsg⟩ store
          else
            .ok ⟨200, .message ("HEI with UKPRN " ++ toString upd.UKPRN ++
                  " updated successfully")⟩ (updateRow store h upd)

/-! ## Entry handlers (`src/controllers.py`) -/

/-- Source: `GET /entry` (`get_entries`): same shape as `get_heis`. -/
def get_entries (store : List Entry) (pageRaw perPageRaw : Option String) :
    Outcome (List Entry) :=
  match parseArg pageRaw 1 with
  | .error m => .raised m store
  | .ok page =>
      match parseArg perPageRaw 10 with
      | .error m => .raised m store
      | .ok per_page =>
          let offset := (page - 1) * per_page
          .ok ⟨200, .entryList (sqliteSlice store offset per_page)⟩ store

/-- Source: `GET /entry/<id1>` (`get_entry`): `scalar_one()` by `entry_id`; only
`NoResultFound` is caught (404). -/
def get_entry (store : List Entry) (id1 : Int) : Outcome (List Entry) :=
  match entryById store id1 with
  | .found e => .ok ⟨200, .entryJson e⟩ store
  | .noResult =>
      .ok ⟨404, .message ("No result found for entry_id: " ++ toString id1)⟩ store
  | .multiple => .raised multipleResultsMsg store

/-- Source: `POST /entry` (`add_entry`): full-mode load; `ValidationError` → 400
before any instance is created. A body whose `entry_id` already exists
adopts that row (`load_instance=True`), so `add` is a no-op and the
commit UPDATEs it; a fresh or absent id inserts, an absent id receiving
the autoincrement rowid. The message prints `entry.entry_id` after the
commit — the body's id, or the rowid autoincrement wrote into the
`add`-ed instance. (The 500 branch fires only on store faults such as a
lost connection, not modelled here.) -/
def add_entry (store : List Entry) (body : EntryJson) : Outcome (List Entry) :=
  match entryLoad body with
  | none => .ok ⟨400, .message "The entry details failed validation."⟩ store
  | some e =>
      .ok ⟨200, .message ("Entry " ++ toString (entryAssignedId store e) ++
            " added successfully")⟩ (entryMerge store e)

/-- Source: `DELETE /entry/<id1>` (`delete_entry`): one
`try ... except exc.SQLAlchemyError` around lookup, delete and commit, so
absence, multiple results and store failures (modelled by `storeRaises`)
all yield 404 `Entry with id <id1> not found.`; the success message uses
the path value `id1`. -/
def delete_entry (storeRaises : Bool) (store : List Entry) (id1 : Int) :
    Outcome (List Entry) :=
  match entryById store id1 with
  | .found _ =>
      if storeRaises then
        .ok ⟨404, .message ("Entry with id " ++ toString id1 ++ " not found.")⟩ store
      else
        .ok ⟨200, .message ("Entry " ++ toString id1 ++ " deleted successfully")⟩
          (store.eraseP (fun x => x.entry_id == id1))
  | .noResult =>
      .ok ⟨404, .message ("Entry with id " ++ toString id1 ++ " not found.")⟩ store
  | .multiple =>
      .ok ⟨404, .message ("Entry with id " ++ toString id1 ++ " not found.")⟩ store

/-- Source: `Entry(entry_id=id1)` — the instance `entry_update` synthesizes for a
PUT to a missing key. Only the path key is set. -/
structure EntryInst where
  entry_id : Option Int := none
  academic_year : Option String := none
  classification : Option String := none
  category_marker : Option String := none
  category : Option String := none
  value : Option String := none
  UKPRN : Option Int := none
  he_name : Option String := none
deriving Repr, DecidableEq

def entrySynth (id1 : Int) : EntryInst := { entry_id := some id1 }

def Entry.toInst (e : Entry) : EntryInst :=
  { entry_id := some e.entry_id, academic_year := some e.academic_year,
    classification := some e.classification,
    category_marker := some e.category_marker, category := some e.category,
    value := some e.value, UKPRN := some e.UKPRN, he_name := some e.he_name }

/-- Tail of `entry_update`'s PUT path: validation failure → 400, store
failure at merge/commit → 500, otherwise merge + commit and answer
`Entry with entry_id <entry_update.entry_id> updated successfully`. The
printed id is the *loaded instance's* — `merge` never writes the
autoincrement id back into its argument, so a PUT body lacking
`entry_id` is answered `Entry with entry_id None updated successfully`
even though the inserted row got a fresh rowid. `inst` is only consulted
for logging (`if entry.entry_id and entry.entry_id != entry_update.entry_id`). -/
def entry_update_tail (storeRaises : Bool) (store : List Entry) (inst : EntryInst)
    (loaded : Option EntryNew) : Outcome (List Entry) :=
  match loaded with
  | none => .ok ⟨400, .message "The entry details failed validation."⟩ store
  | some upd =>
      let _logKeyChanged := inst.entry_id != none && inst.entry_id != upd.entry_id
      if storeRaises then .ok ⟨500, .message internalErrorMsg⟩ store
      else
        .ok ⟨200, .message ("Entry with entry_id " ++ pyStrOptInt upd.entry_id ++
              " updated successfully")⟩ (entryMerge store upd)

/-- Source: `PUT/PATCH /entry/<id1>` (`entry_update`): lookup catching only
`NoResultFound` — on absence PUT synthesizes `Entry(entry_id=id1)` and
PATCH answers 404; `MultipleResultsFound` escapes. PUT loads the body in
full mode and merges. PATCH loads in partial mode against the found
instance, mutating that persistent row in place, so the commit UPDATEs
the found row — renaming it when `entry_id` was resubmitted changed, and
raising `IntegrityError` (→ 500) when the new id collides with another
row. -/
def entry_update (method : Method) (storeRaises : Bool) (store : List Entry)
    (id1 : Int) (body : EntryJson) : Outcome (List Entry) :=
  match entryById store id1, method with
  | .multiple, _ => .raised multipleResultsMsg store
  | .noResult, .PATCH =>
      .ok ⟨404, .message ("No result found for entry_id: " ++ toString id1)⟩ store
  | .noResult, .PUT =>
      entry_update_tail storeRaises store (entrySynth id1) (entryLoad body)
  | .found e, .PUT =>
      entry_update_tail storeRaises store e.toInst (entryLoad body)
  | .found e, .PATCH =>
      match entryLoadPartial body e with
      | none => .ok ⟨400, .message "The entry details failed validation."⟩ store
      | some upd =>
          if storeRaises then .ok ⟨500, .message internalErrorMsg⟩ store
          else if entryUpdateConflict store e upd then
            .ok ⟨500, .message internalErrorMsg⟩ store
          else
            .ok ⟨200, .message ("Entry with entry_id " ++ toString upd.entry_id ++
                  " updated successfully")⟩ (updateRow store e upd)

/-! ## Helper lemmas -/

lemma scalarOne_found {α : Type} {l : List α} {a : α}
    (h : scalarOne l = .found a) : l = [a] := by
  match l with
  | [] => simp [scalarOne] at h
  | [x] =>
      simp only [scalarOne, Lookup.found.injEq] at h
      rw [h]
  | x :: y :: t => simp [scalarOne] at h

lemma filter_singleton_mem {α : Type} {P : α → Bool} {l : List α} {h : α}
    (hf : l.filter P = [h]) : h ∈ l ∧ P h = true := by
  have hm : h ∈ l.filter P := by rw [hf]; exact List.mem_singleton.mpr rfl
  exact List.mem_filter.mp hm

lemma any_of_filter_singleton {α : Type} {P K : α → Bool} {l : List α} {h : α}
    (hf : l.filter P = [h]) (hKh : K h = true) : l.any K = true :=
  List.any_eq_true.mpr ⟨h, (filter_singleton_mem hf).1, hKh⟩

lemma filter_map_replace_nil {α : Type} {P K : α → Bool} {r : α} {l : List α}
    (hf : l.filter P = []) (hKP : ∀ x, K x = true → P x = true) :
    (l.map (fun x => if K x then r else x)).filter P = [] := by
  induction l with
  | nil => rfl
  | cons a t ih =>
      rw [List.filter_cons] at hf
      by_cases hPa : P a = true
      · rw [if_pos hPa] at hf
        exact absurd hf (List.cons_ne_nil a _)
      · rw [if_neg hPa] at hf
        have hKa : ¬(K a = true) := fun hk => hPa (hKP a hk)
        simp only [List.map_cons, if_neg hKa, List.filter_cons, if_neg hPa]
        exact ih hf

lemma filter_map_replace_singleton {α : Type} {P K : α → Bool} {l : List α}
    {h r : α} (hf : l.filter P = [h]) (hKh : K h = true) (hPr : P r = true)
    (hKP : ∀ x, K x = true → P x = true) :
    (l.map (fun x => if K x then r else x)).filter P = [r] := by
  induction l with
  | nil => simp at hf
  | cons a t ih =>
      rw [List.filter_cons] at hf
      by_cases hPa : P a = true
      · rw [if_pos hPa] at hf
        obtain ⟨ha, ht⟩ := List.cons_eq_cons.mp hf
        subst ha
        simp only [List.map_cons, if_pos hKh, List.filter_cons, if_pos hPr]
        rw [filter_map_replace_nil ht hKP]
      · rw [if_neg hPa] at hf
        have hKa : ¬(K a = true) := fun hk => hPa (hKP a hk)
        simp only [List.map_cons, if_neg hKa, List.filter_cons, if_neg hPa]
        exact ih hf

lemma filter_eraseP_nil {α : Type} {P : α → Bool} {l : List α} {h : α}
    (hf : l.filter P = [h]) : (l.eraseP P).filter P = [] := by
  induction l with
  | nil => simp at hf
  | cons a t ih =>
      rw [List.filter_cons] at hf
      by_cases hPa : P a = true
      · rw [if_pos hPa] at hf
        have ht : t.filter P = [] := (List.cons_eq_cons.mp hf).2
        rw [List.eraseP_cons, hPa]
        exact ht
      · rw [if_neg hPa] at hf
        rw [List.eraseP_cons]
        simp only [hPa, cond_false, List.filter_cons, if_neg hPa]
        exact ih hf

lemma mem_heiMerge (store : List HEI) (upd : HEI) : upd ∈ heiMerge store upd := by
  unfold heiMerge
  by_cases hk : hasHeiKey store upd.UKPRN upd.he_name = true
  · rw [if_pos hk]
    unfold hasHeiKey at hk
    obtain ⟨x, hx, hkey⟩ := List.any_eq_true.mp hk
    exact List.mem_map.mpr ⟨x, hx, by simp only [hkey, if_pos]⟩
  · rw [if_neg hk]
    simp

lemma mem_entryMerge (store : List Entry) (e : EntryNew) :
    e.assign (entryAssignedId store e) ∈ entryMerge store e := by
  cases he : e.entry_id with
  | some i =>
      by_cases hk : store.any (fun x => x.entry_id == i) = true
      · simp only [entryMerge, entryAssignedId, he, if_pos hk, Option.getD_some]
        obtain ⟨x, hx, hkey⟩ := List.any_eq_true.mp hk
        exact List.mem_map.mpr ⟨x, hx, by simp only [hkey, if_pos]⟩
      · simp only [entryMerge, entryAssignedId, he, if_neg hk, Option.getD_some]
        simp
  | none => simp [entryMerge, entryAssignedId, he]

lemma eq_of_filter_singleton {α : Type} {P : α → Bool} {l : List α} {h : α}
    (hf : l.filter P = [h]) : ∀ x ∈ l, P x = true → x = h := by
  intro x hx hP
  have hm : x ∈ l.filter P := List.mem_filter.mpr ⟨hx, hP⟩
  rw [hf] at hm
  exact List.mem_singleton.mp hm

lemma eq_singleton_of_length_le_one {α : Type} {l : List α} {x : α}
    (hl : l.length ≤ 1) (hx : x ∈ l) : l = [x] := by
  match l, hl with
  | [], _ => simp at hx
  | [a], _ => rw [List.mem_singleton.mp hx]
  | a :: b :: t, hl => simp at hl

lemma foldl_max_init_le (is : List Int) : ∀ i : Int, i ≤ is.foldl max i := by
  induction is with
  | nil => intro i; exact le_refl i
  | cons a t ih => intro i; exact le_trans (le_max_left i a) (ih (max i a))

lemma mem_le_foldl_max (is : List Int) :
    ∀ (i : Int), ∀ j ∈ is, j ≤ is.foldl max i := by
  induction is with
  | nil => intro i j hj; simp at hj
  | cons a t ih =>
      intro i j hj
      rcases List.mem_cons.mp hj with h | h
      · subst h
        exact le_trans (le_max_right i j) (foldl_max_init_le t _)
      · exact ih _ j h

lemma lt_nextRowId {store : List Entry} {x : Entry} (hx : x ∈ store) :
    x.entry_id < nextRowId store := by
  have hm : x.entry_id ∈ store.map (fun e => e.entry_id) :=
    List.mem_map_of_mem _ hx
  cases hl : store.map (fun e => e.entry_id) with
  | nil => rw [hl] at hm; simp at hm
  | cons i is =>
      rw [hl] at hm
      have hle : x.entry_id ≤ is.foldl max i := by
        rcases List.mem_cons.mp hm with h | h
        · rw [h]; exact foldl_max_init_le is i
        · exact mem_le_foldl_max is i x.entry_id h
      have hnr : nextRowId store = is.foldl max i + 1 := by
        unfold nextRowId
        rw [hl]
      omega

lemma filter_nextRowId_nil (store : List Entry) :
    store.filter (fun x => x.entry_id == nextRowId store) = [] := by
  rw [List.filter_eq_nil_iff]
  intro x hx
  have := lt_nextRowId hx
  simp only [beq_iff_eq]
  omega

lemma heiLoad_spec {store : List HEI} {j : HeiJson} {h : HEI}
    (hl : heiLoad store j = some h) :
    j.UKPRN = some h.UKPRN ∧ j.he_name = some h.he_name ∧
    j.region = some h.region ∧ (∀ v, j.lat = some v → h.lat = v) ∧
    (∀ v, j.lon = some v → h.lon = v) := by
  unfold heiLoad at hl
  by_cases hc : j.unknownFields = true
  · simp [hc] at hl
  · rw [if_neg (by simp [hc])] at hl
    rcases hU : j.UKPRN with _ | u <;> rw [hU] at hl
    · simp at hl
    rcases hN : j.he_name with _ | n <;> rw [hN] at hl
    · simp at hl
    rcases hR : j.region with _ | r <;> rw [hR] at hl
    · simp at hl
    dsimp only at hl
    rcases hF : store.find? (fun x => x.UKPRN == u && x.he_name == n) with
        _ | row <;> rw [hF] at hl <;> injection hl with hl <;> subst hl <;>
      exact ⟨rfl, rfl, rfl, fun v hv => by simp [hv], fun v hv => by simp [hv]⟩

lemma entryLoad_spec {j : EntryJson} {e : EntryNew}
    (hl : entryLoad j = some e) :
    e.entry_id = j.entry_id ∧ j.academic_year = some e.academic_year ∧
    j.classification = some e.classification ∧
    j.category_marker = some e.category_marker ∧
    j.category = some e.category ∧ j.value = some e.value ∧
    j.UKPRN = some e.UKPRN ∧ j.he_name = some e.he_name := by
  unfold entryLoad at hl
  by_cases hc : j.unknownFields = true
  · simp [hc] at hl
  · rw [if_neg (by simp [hc])] at hl
    rcases hA : j.academic_year with _ | a <;> rw [hA] at hl
    · simp at hl
    rcases hB : j.classification with _ | b <;> rw [hB] at hl
    · simp at hl
    rcases hC2 : j.category_marker with _ | c2 <;> rw [hC2] at hl
    · simp at hl
    rcases hD : j.category with _ | d <;> rw [hD] at hl
    · simp at hl
    rcases hV : j.value with _ | v <;> rw [hV] at hl
    · simp at hl
    rcases hUk : j.UKPRN with _ | uk <;> rw [hUk] at hl
    · simp at hl
    rcases hHn : j.he_name with _ | hn <;> rw [hHn] at hl
    · simp at hl
    injection hl with hl
    subst hl
    exact ⟨rfl, rfl, rfl, rfl, rfl, rfl, rfl, rfl⟩

lemma sqliteSlice_nat {α : Type} (rows : List α) (page perPage : Nat)
    (hp : 1 ≤ page) :
    sqliteSlice rows (((page : Int) - 1) * (perPage : Int)) (perPage : Int) =
      (rows.drop ((page - 1) * perPage)).take perPage := by
  unfold sqliteSlice
  have h1 : ¬((perPage : Int) < 0) := by omega
  rw [if_neg h1]
  have h2 : ((page : Int) - 1) = ((page - 1 : Nat) : Int) := by omega
  rw [h2, ← Nat.cast_mul, Int.toNat_natCast, Int.toNat_natCast]

/-! ## Claim theorems -/

/-- C4: the list endpoints compute `offset = (page-1) * per_page` and
return the rows at positions `offset .. offset+per_page-1` in the store's
natural order; `page=1` and `page=2` at the same `per_page` yield
contiguous slices whose concatenation is the length-`2*per_page` prefix
of the full list; `page` defaults to 1 and `per_page` to 10 when
absent. -/
theorem claim4_pagination_slices (storeH : List HEI) (storeE : List Entry)
    (page perPage : Nat) (ps pps : String)
    (hp : 1 ≤ page) (hpp : 1 ≤ perPage)
    (hps : pyInt? ps = some (page : Int))
    (hpps : pyInt? pps = some (perPage : Int)) :
    get_heis storeH (some ps) (some pps) =
      .ok ⟨200, .heiList ((storeH.drop ((page - 1) * perPage)).take perPage)⟩ storeH
    ∧ get_entries storeE (some ps) (some pps) =
      .ok ⟨200, .entryList ((storeE.drop ((page - 1) * perPage)).take perPage)⟩ storeE
    ∧ get_heis storeH none none = .ok ⟨200, .heiList (storeH.take 10)⟩ storeH
    ∧ get_entries storeE none none = .ok ⟨200, .entryList (storeE.take 10)⟩ storeE
    ∧ (storeH.drop ((1 - 1) * perPage)).take perPage ++
        (storeH.drop ((2 - 1) * perPage)).take perPage =
      storeH.take (2 * perPage) := by
  refine ⟨?_, ?_, ?_, ?_, ?_⟩
  · simp only [get_heis, parseArg, hps, hpps]
    rw [sqliteSlice_nat storeH page perPage hp]
  · simp only [get_entries, parseArg, hps, hpps]
    rw [sqliteSlice_nat storeE page perPage hp]
  · rfl
  · rfl
  · simp only [Nat.sub_self, Nat.zero_mul, List.drop_zero]
    have h21 : (2 - 1) * perPage = perPage := by omega
    rw [h21, two_mul, List.take_add]

/-- Witness for C4 at `page = "2"`, `per_page = "3"` over a four-row
table: the second page is the fourth row alone. -/
theorem claim4_witness :
    pyInt? "2" = some 2 ∧ pyInt? "3" = some 3 ∧
    get_heis [⟨1, "a", "r", none, none⟩, ⟨2, "b", "r", none, none⟩,
        ⟨3, "c", "r", none, none⟩, ⟨4, "d", "r", none, none⟩]
      (some "2") (some "3") =
      .ok ⟨200, .heiList [⟨4, "d", "r", none, none⟩]⟩
        [⟨1, "a", "r", none, none⟩, ⟨2, "b", "r", none, none⟩,
          ⟨3, "c", "r", none, none⟩, ⟨4, "d", "r", none, none⟩] :=
  ⟨by decide, by decide,
    (claim4_pagination_slices
      [⟨1, "a", "r", none, none⟩, ⟨2, "b", "r", none, none⟩,
        ⟨3, "c", "r", none, none⟩, ⟨4, "d", "r", none, none⟩] [] 2 3 "2" "3"
      (by decide) (by decide) (by decide) (by decide)).1⟩

/-- C8: a non-numeric `page` or `per_page` on the list endpoints raises
`ValueError` past the handler's `except exc.SQLAlchemyError`, and the
generic exception handler answers `500 {"error": <message>}` — never
a 400. -/
theorem claim8_nonnumeric_pagination_500 (storeH : List HEI)
    (storeE : List Entry) (s t : String) (other : Option String) (n : Int)
    (hs : pyInt? s = none) (ht : pyInt? t = some n) :
    handleException (get_heis storeH (some s) other) =
      ({ status := 500, body := .error (intParseErrorMsg s) }, storeH)
    ∧ handleException (get_heis storeH (some t) (some s)) =
      ({ status := 500, body := .error (intParseErrorMsg s) }, storeH)
    ∧ (handleException (get_heis storeH (some s) other)).1.status ≠ 400
    ∧ handleException (get_entries storeE (some s) other) =
      ({ status := 500, body := .error (intParseErrorMsg s) }, storeE)
    ∧ handleException (get_entries storeE (some t) (some s)) =
      ({ status := 500, body := .error (intParseErrorMsg s) }, storeE) := by
  refine ⟨?_, ?_, ?_, ?_, ?_⟩ <;>
    simp [get_heis, get_entries, parseArg, hs, ht, handleException]

/-- Witness for C8 at `page = "abc"`: the response is the 500 error
envelope. -/
theorem claim8_witness :
    pyInt? "abc" = none ∧ pyInt? "1" = some 1 ∧
    handleException (get_heis ([] : List HEI) (some "abc") none) =
      ({ status := 500,
         body := .error "invalid literal for int() with base 10: abc" }, []) :=
  ⟨by decide, by decide,
    (claim8_nonnumeric_pagination_500 [] [] "abc" "1" none 1
      (by decide) (by decide)).1⟩

/-- C9 at the failing input `User("user@example.com", "s3cret")`:
`User.__init__` leaves the persisted `password_hash` column unset and
stores the plaintext in the unmapped transient attribute `password` — it
does not derive `password_hash` via the one-way hash (the intended call
was evidently `set_password`, which does exactly that). -/
theorem claim9_user_init_plaintext :
    (User.init "user@example.com" "s3cret").password_hash = none
    ∧ (User.init "user@example.com" "s3cret").password = some "s3cret"
    ∧ ((User.init "user@example.com" "s3cret").set_password
        (fun s => String.append "pbkdf2:" s) "s3cret").password_hash =
      some "pbkdf2:s3cret" :=
  ⟨rfl, rfl, rfl⟩

/-- Two HEI rows sharing `UKPRN = 1` — legal because the relational
primary key is the composite `(UKPRN, he_name)`. -/
def hei1A : HEI := { UKPRN := 1, he_name := "A", region := "R" }

def hei1B : HEI := { UKPRN := 1, he_name := "B", region := "R" }

/-- C10 counterexample: with two rows sharing `UKPRN = 1`, the PUT/PATCH
lookup does *not* catch the multiple-results error as a generic store
error (its `except` clause names only `NoResultFound`), so the request
is answered by the generic handler as `500 {"error": ...}` — not the
404/create-on-PUT the claim asserts. -/
theorem claim10_counterexample :
    hei_update .PUT false [hei1A, hei1B] 1
        { UKPRN := some 1, he_name := some "C", region := some "R" } =
      .raised multipleResultsMsg [hei1A, hei1B]
    ∧ (handleException (hei_update .PUT false [hei1A, hei1B] 1
        { UKPRN := some 1, he_name := some "C", region := some "R" })).1 =
      { status := 500, body := .error multipleResultsMsg }
    ∧ (handleException (hei_update .PATCH false [hei1A, hei1B] 1
        { UKPRN := some 1, he_name := some "C", region := some "R" })).1 =
      { status := 500, body := .error multipleResultsMsg } :=
  ⟨rfl, rfl, rfl⟩

/-- C10 as amended: when two HEI rows share the looked-up UKPRN, GET and
PATCH/PUT all let `MultipleResultsFound` escape to the generic handler
(500 `{"error": ...}`, since their `except` clauses catch only
`NoResultFound`), while DELETE catches it as an `SQLAlchemyError` and
reports the row as absent (404), even though matching rows exist. -/
theorem claim10_amended_multiple_results (store : List HEI) (u : Int)
    (body : HeiJson) (m : Method) (sr : Bool)
    (hm : heiByUkprn store u = .multiple) :
    handleException (get_hei_using_ukprn store u) =
      ({ status := 500, body := .error multipleResultsMsg }, store)
    ∧ handleException (hei_update m sr store u body) =
      ({ status := 500, body := .error multipleResultsMsg }, store)
    ∧ delete_hei_using_ukprn sr store u =
      .ok ⟨404, .message ("HEI with UKPRN " ++ toString u ++ " not found.")⟩
        store := by
  refine ⟨?_, ?_, ?_⟩
  · simp [get_hei_using_ukprn, hm, handleException]
  · simp [hei_update, hm, handleException]
  · simp [delete_hei_using_ukprn, hm]

/-- C1: a PUT to `/hei/<ukprn>` or `/entry/<id1>` whose key has no
matching row never answers 404: it creates the resource and succeeds
when the body validates (with a healthy store); a PATCH to the same path
with a non-existent key terminates with
404 `{"message": "No result found for <key-field>: <key-value>"}`,
whatever the request body. The Entry success message prints the loaded
instance's `entry_id` — `None` for bodies lacking it, since `merge` does
not write the autoincrement id back; the created row itself carries the
assigned id. -/
theorem claim1_put_upserts_patch_404 (storeH : List HEI) (storeE : List Entry)
    (u i : Int) (bh : HeiJson) (be : EntryJson) (sr : Bool)
    (hH : heiByUkprn storeH u = .noResult)
    (hE : entryById storeE i = .noResult) :
    hei_update .PATCH sr storeH u bh =
      .ok ⟨404, .message ("No result found for UKPRN: " ++ toString u)⟩ storeH
    ∧ entry_update .PATCH sr storeE i be =
      .ok ⟨404, .message ("No result found for entry_id: " ++ toString i)⟩ storeE
    ∧ (handleException (hei_update .PUT sr storeH u bh)).1.status ≠ 404
    ∧ (handleException (entry_update .PUT sr storeE i be)).1.status ≠ 404
    ∧ (∀ h, heiLoad storeH bh = some h →
        hei_update .PUT false storeH u bh =
          .ok ⟨200, .message ("HEI with UKPRN " ++ toString h.UKPRN ++
              " updated successfully")⟩ (heiMerge storeH h)
        ∧ h ∈ heiMerge storeH h)
    ∧ (∀ e, entryLoad be = some e →
        entry_update .PUT false storeE i be =
          .ok ⟨200, .message ("Entry with entry_id " ++ pyStrOptInt e.entry_id ++
              " updated successfully")⟩ (entryMerge storeE e)
        ∧ e.assign (entryAssignedId storeE e) ∈ entryMerge storeE e) := by
  refine ⟨?_, ?_, ?_, ?_, ?_, ?_⟩
  · simp [hei_update, hH]
  · simp [entry_update, hE]
  · simp only [hei_update, hH]
    cases hl : heiLoad storeH bh with
    | none => simp [hei_update_tail, hl, handleException]
    | some h => cases sr <;> simp [hei_update_tail, hl, handleException]
  · simp only [entry_update, hE]
    cases hl : entryLoad be with
    | none => simp [entry_update_tail, handleException]
    | some e => cases sr <;> simp [entry_update_tail, handleException]
  · intro h hl
    refine ⟨?_, mem_heiMerge storeH h⟩
    simp [hei_update, hH, hei_update_tail, hl]
  · intro e hl
    refine ⟨?_, mem_entryMerge storeE e⟩
    simp [entry_update, hE, entry_update_tail, hl]

/-- Witness for C1 on empty tables: PATCH answers 404 and PUT with a
valid body creates the row. -/
theorem claim1_witness :
    heiByUkprn [] 3 = .noResult ∧ entryById [] 4 = .noResult ∧
    hei_update .PATCH false [] 3 { he_name := some "X" } =
      .ok ⟨404, .message "No result found for UKPRN: 3"⟩ [] :=
  ⟨by decide, by decide,
    (claim1_put_upserts_patch_404 [] [] 3 4 { he_name := some "X" } {} false
      (by decide) (by decide)).1⟩

/-- C5: a payload that fails schema validation makes POST, PUT and PATCH
answer 400 `{"message": "The HEI details failed validation."}` with the
table exactly as before the request. -/
theorem claim5_validation_failure_atomic (store : List HEI) (u : Int)
    (body : HeiJson) (sr : Bool) (h : HEI) :
    (heiLoad store body = none →
      add_hei store body =
        .ok ⟨400, .message "The HEI details failed validation."⟩ store
      ∧ (heiByUkprn store u = .noResult →
          hei_update .PUT sr store u body =
            .ok ⟨400, .message "The HEI details failed validation."⟩ store)
      ∧ (heiByUkprn store u = .found h →
          hei_update .PUT sr store u body =
            .ok ⟨400, .message "The HEI details failed validation."⟩ store))
    ∧ (heiByUkprn store u = .found h → heiLoadPartial body h = none →
        hei_update .PATCH sr store u body =
          .ok ⟨400, .message "The HEI details failed validation."⟩ store) := by
  constructor
  · intro hl
    refine ⟨by simp [add_hei, hl], ?_, ?_⟩
    · intro hnr
      simp [hei_update, hnr, hei_update_tail, hl]
    · intro hf
      simp [hei_update, hf, hei_update_tail, hl]
  · intro hf hlp
    simp [hei_update, hf, hlp]

/-- Witness for C5: a POST body missing `he_name` and `region` is
rejected with 400 and the single-row table is untouched. -/
theorem claim5_witness :
    heiLoad [hei1A] { UKPRN := some 11111111 } = none ∧
    add_hei [hei1A] { UKPRN := some 11111111 } =
      .ok ⟨400, .message "The HEI details failed validation."⟩ [hei1A] :=
  ⟨by decide,
    ((claim5_validation_failure_atomic [hei1A] 1 { UKPRN := some 11111111 }
      false hei1A).1 (by decide)).1⟩

/-- C6: DELETE removes the row and commits when the key matches a row
and the store is healthy; on a missing row, or when the store raises
during delete/commit, it answers
404 `{"message": "<Resource> with <key-field> <key-value> not found."}` —
the two failure causes are indistinguishable to the client. -/
theorem claim6_delete_404_conflation (storeH : List HEI) (storeE : List Entry)
    (u i : Int) (h : HEI) (e : Entry) :
    (heiByUkprn storeH u = .found h →
      delete_hei_using_ukprn false storeH u =
        .ok ⟨200, .message ("HEI " ++ toString h.UKPRN ++ " deleted successfully")⟩
          (storeH.eraseP (fun x => x.UKPRN == u))
      ∧ heiByUkprn (storeH.eraseP (fun x => x.UKPRN == u)) u = .noResult
      ∧ delete_hei_using_ukprn true storeH u =
        .ok ⟨404, .message ("HEI with UKPRN " ++ toString u ++ " not found.")⟩
          storeH)
    ∧ (heiByUkprn storeH u = .noResult → ∀ sr,
        delete_hei_using_ukprn sr storeH u =
          .ok ⟨404, .message ("HEI with UKPRN " ++ toString u ++ " not found.")⟩
            storeH)
    ∧ (entryById storeE i = .found e →
        delete_entry false storeE i =
          .ok ⟨200, .message ("Entry " ++ toString i ++ " deleted successfully")⟩
            (storeE.eraseP (fun x => x.entry_id == i))
        ∧ entryById (storeE.eraseP (fun x => x.entry_id == i)) i = .noResult
        ∧ delete_entry true storeE i =
          .ok ⟨404, .message ("Entry with id " ++ toString i ++ " not found.")⟩
            storeE)
    ∧ (entryById storeE i = .noResult → ∀ sr,
        delete_entry sr storeE i =
          .ok ⟨404, .message ("Entry with id " ++ toString i ++ " not found.")⟩
            storeE) := by
  refine ⟨?_, ?_, ?_, ?_⟩
  · intro hf
    have hfl : storeH.filter (fun x => x.UKPRN == u) = [h] := scalarOne_found hf
    refine ⟨by simp [delete_hei_using_ukprn, hf], ?_,
      by simp [delete_hei_using_ukprn, hf]⟩
    unfold heiByUkprn
    rw [filter_eraseP_nil hfl]
    rfl
  · intro hnr sr
    simp [delete_hei_using_ukprn, hnr]
  · intro hf
    have hfl : storeE.filter (fun x => x.entry_id == i) = [e] := scalarOne_found hf
    refine ⟨by simp [delete_entry, hf], ?_, by simp [delete_entry, hf]⟩
    unfold entryById
    rw [filter_eraseP_nil hfl]
    rfl
  · intro hnr sr
    simp [delete_entry, hnr]

/-- Witness for C6: deleting the only row with key 1 removes it; with
the store raising, or on the missing key 2, the same 404 body comes
back. -/
theorem claim6_witness :
    heiByUkprn [hei1A] 1 = .found hei1A ∧
    delete_hei_using_ukprn false [hei1A] 1 =
      .ok ⟨200, .message "HEI 1 deleted successfully"⟩ [] ∧
    delete_hei_using_ukprn true [hei1A] 1 =
      .ok ⟨404, .message "HEI with UKPRN 1 not found."⟩ [hei1A] :=
  ⟨by decide,
    ((claim6_delete_404_conflation [hei1A] [] 1 2 hei1A
      ⟨9, "y", "c", "m", "g", "v", 1, "n"⟩).1 (by decide)).1,
    ((claim6_delete_404_conflation [hei1A] [] 1 2 hei1A
      ⟨9, "y", "c", "m", "g", "v", 1, "n"⟩).1 (by decide)).2.2⟩

/-- C2: a successful PATCH on an existing resource changes only the
fields present in the body — every field absent from the body has, after
the PATCH, the value a GET-by-key returned before it (partial-mode load
mutating the found instance, whose row the commit then UPDATEs in
place). Stated for bodies that do not resubmit the GET key (`UKPRN` /
`entry_id`), so the before/after GET is by the same key; `he_name` may be
resubmitted, renaming the row in place. -/
theorem claim2_patch_partial_frame (storeH : List HEI) (storeE : List Entry)
    (u i : Int) (bh : HeiJson) (be : EntryJson) (h : HEI) (e : Entry)
    (hfH : heiByUkprn storeH u = .found h)
    (hbU : bh.UKPRN = none) (hbC : bh.unknownFields = false)
    (hfE : entryById storeE i = .found e)
    (heI : be.entry_id = none) (heC : be.unknownFields = false) :
    hei_update .PATCH false storeH u bh =
      .ok ⟨200, .message ("HEI with UKPRN " ++ toString (heiPatched bh h).UKPRN
          ++ " updated successfully")⟩ (updateRow storeH h (heiPatched bh h))
    ∧ get_hei_using_ukprn storeH u = .ok ⟨200, .heiJson h⟩ storeH
    ∧ get_hei_using_ukprn (updateRow storeH h (heiPatched bh h)) u =
      .ok ⟨200, .heiJson (heiPatched bh h)⟩
        (updateRow storeH h (heiPatched bh h))
    ∧ (heiPatched bh h).UKPRN = h.UKPRN
    ∧ (bh.he_name = none → (heiPatched bh h).he_name = h.he_name)
    ∧ (∀ v, bh.he_name = some v → (heiPatched bh h).he_name = v)
    ∧ (bh.region = none → (heiPatched bh h).region = h.region)
    ∧ (∀ r, bh.region = some r → (heiPatched bh h).region = r)
    ∧ (bh.lat = none → (heiPatched bh h).lat = h.lat)
    ∧ (∀ v, bh.lat = some v → (heiPatched bh h).lat = v)
    ∧ (bh.lon = none → (heiPatched bh h).lon = h.lon)
    ∧ (∀ v, bh.lon = some v → (heiPatched bh h).lon = v)
    ∧ entry_update .PATCH false storeE i be =
      .ok ⟨200, .message ("Entry with entry_id "
          ++ toString (entryPatched be e).entry_id ++ " updated successfully")⟩
        (updateRow storeE e (entryPatched be e))
    ∧ get_entry storeE i = .ok ⟨200, .entryJson e⟩ storeE
    ∧ get_entry (updateRow storeE e (entryPatched be e)) i =
      .ok ⟨200, .entryJson (entryPatched be e)⟩
        (updateRow storeE e (entryPatched be e))
    ∧ (entryPatched be e).entry_id = e.entry_id
    ∧ (be.academic_year = none →
        (entryPatched be e).academic_year = e.academic_year)
    ∧ (∀ v, be.academic_year = some v → (entryPatched be e).academic_year = v)
    ∧ (be.classification = none →
        (entryPatched be e).classification = e.classification)
    ∧ (∀ v, be.classification = some v → (entryPatched be e).classification = v)
    ∧ (be.category_marker = none →
        (entryPatched be e).category_marker = e.category_marker)
    ∧ (∀ v, be.category_marker = some v →
        (entryPatched be e).category_marker = v)
    ∧ (be.category = none → (entryPatched be e).category = e.category)
    ∧ (∀ v, be.category = some v → (entryPatched be e).category = v)
    ∧ (be.value = none → (entryPatched be e).value = e.value)
    ∧ (∀ v, be.value = some v → (entryPatched be e).value = v)
    ∧ (be.UKPRN = none → (entryPatched be e).UKPRN = e.UKPRN)
    ∧ (∀ v, be.UKPRN = some v → (entryPatched be e).UKPRN = v)
    ∧ (be.he_name = none → (entryPatched be e).he_name = e.he_name)
    ∧ (∀ v, be.he_name = some v → (entryPatched be e).he_name = v) := by
  have hflH : storeH.filter (fun x => x.UKPRN == u) = [h] := scalarOne_found hfH
  have hPh : (h.UKPRN == u) = true := (filter_singleton_mem hflH).2
  have hpU : (heiPatched bh h).UKPRN = h.UKPRN := by
    simp [heiPatched, hbU]
  have hPpH : ((heiPatched bh h).UKPRN == u) = true := by rw [hpU]; exact hPh
  have hcfH : heiUpdateConflict storeH h (heiPatched bh h) = false := by
    unfold heiUpdateConflict
    rw [List.any_eq_false]
    intro x hx hc
    rw [Bool.and_eq_true, Bool.and_eq_true] at hc
    obtain ⟨⟨hnot, hU2⟩, _⟩ := hc
    have hxh : x = h := by
      apply eq_of_filter_singleton hflH x hx
      have hxu : x.UKPRN = h.UKPRN := by rw [beq_iff_eq.mp hU2, hpU]
      rw [hxu]
      exact hPh
    rw [hxh] at hnot
    simp at hnot
  have hKhH : ((h == h) = true) := by simp
  have hKPH : ∀ x : HEI, (x == h) = true → (x.UKPRN == u) = true := by
    intro x hx
    rw [beq_iff_eq.mp hx]
    exact hPh
  have hfilterH : (updateRow storeH h (heiPatched bh h)).filter
      (fun x => x.UKPRN == u) = [heiPatched bh h] := by
    unfold updateRow
    exact filter_map_replace_singleton hflH hKhH hPpH hKPH
  have hflE : storeE.filter (fun x => x.entry_id == i) = [e] := scalarOne_found hfE
  have hPe : (e.entry_id == i) = true := (filter_singleton_mem hflE).2
  have hqI : (entryPatched be e).entry_id = e.entry_id := by
    simp [entryPatched, heI]
  have hcfE : entryUpdateConflict storeE e (entryPatched be e) = false := by
    unfold entryUpdateConflict
    rw [List.any_eq_false]
    intro x hx hc
    rw [Bool.and_eq_true] at hc
    obtain ⟨hnot, hU2⟩ := hc
    have hxh : x = e := by
      apply eq_of_filter_singleton hflE x hx
      have hxu : x.entry_id = e.entry_id := by rw [beq_iff_eq.mp hU2, hqI]
      rw [hxu]
      exact hPe
    rw [hxh] at hnot
    simp at hnot
  have hPpE : ((entryPatched be e).entry_id == i) = true := by
    rw [hqI]
    exact hPe
  have hKPE : ∀ x : Entry, (x == e) = true → (x.entry_id == i) = true := by
    intro x hx
    rw [beq_iff_eq.mp hx]
    exact hPe
  have hfilterE : (updateRow storeE e (entryPatched be e)).filter
      (fun x => x.entry_id == i) = [entryPatched be e] := by
    unfold updateRow
    exact filter_map_replace_singleton hflE (by simp) hPpE hKPE
  refine ⟨?_, ?_, ?_, hpU, ?_, ?_, ?_, ?_, ?_, ?_, ?_, ?_, ?_, ?_, ?_, hqI,
    ?_, ?_, ?_, ?_, ?_, ?_, ?_, ?_, ?_, ?_, ?_, ?_, ?_, ?_⟩
  · simp [hei_update, hfH, heiLoadPartial, hbC, hcfH]
  · simp [get_hei_using_ukprn, hfH]
  · unfold get_hei_using_ukprn heiByUkprn
    rw [hfilterH]
    rfl
  · intro hr; simp [heiPatched, hr]
  · intro v hr; simp [heiPatched, hr]
  · intro hr; simp [heiPatched, hr]
  · intro r hr; simp [heiPatched, hr]
  · intro hr; simp [heiPatched, hr]
  · intro v hr; simp [heiPatched, hr]
  · intro hr; simp [heiPatched, hr]
  · intro v hr; simp [heiPatched, hr]
  · simp [entry_update, hfE, entryLoadPartial, heC, hcfE]
  · simp [get_entry, hfE]
  · unfold get_entry entryById
    rw [hfilterE]
    rfl
  · intro hr; simp [entryPatched, hr]
  · intro v hr; simp [entryPatched, hr]
  · intro hr; simp [entryPatched, hr]
  · intro v hr; simp [entryPatched, hr]
  · intro hr; simp [entryPatched, hr]
  · intro v hr; simp [entryPatched, hr]
  · intro hr; simp [entryPatched, hr]
  · intro v hr; simp [entryPatched, hr]
  · intro hr; simp [entryPatched, hr]
  · intro v hr; simp [entryPatched, hr]
  · intro hr; simp [entryPatched, hr]
  · intro v hr; simp [entryPatched, hr]
  · intro hr; simp [entryPatched, hr]
  · intro v hr; simp [entryPatched, hr]

/-- Witness for C2: PATCH `{"region": "S"}` on the single row with
`UKPRN = 1` updates `region` in place and leaves every other field as GET
returned it. -/
theorem claim2_witness :
    heiByUkprn [hei1A] 1 = .found hei1A ∧
    hei_update .PATCH false [hei1A] 1 { region := some "S" } =
      .ok ⟨200, .message "HEI with UKPRN 1 updated successfully"⟩
        [⟨1, "A", "S", none, none⟩] :=
  ⟨by decide,
    (claim2_patch_partial_frame [hei1A] [⟨9, "y", "c", "m", "g", "v", 1, "n"⟩]
      1 9 { region := some "S" } {} hei1A ⟨9, "y", "c", "m", "g", "v", 1, "n"⟩
      (by decide) (by decide) (by decide) (by decide) (by decide)
      (by decide)).1⟩

/-- C3: a valid creation payload posted to `/hei` (or `/entry`) succeeds
with `{"message": "<Resource> <name-or-id> added successfully"}` — on a
fresh key by insertion, on an already-used key by the load adopting that
row and the commit updating it — and a subsequent GET by the created key
returns 200 with the posted field values. Stated for stores where the
created key resolves uniquely afterwards: no *other* HEI row shares the
posted UKPRN (a duplicated UKPRN makes the single-row GET raise
`MultipleResultsFound`), and at most one row holds the created key
(primary-key well-formedness). -/
theorem claim3_post_then_get_roundtrip (storeH : List HEI) (storeE : List Entry)
    (bh : HeiJson) (be : EntryJson) (h : HEI) (en : EntryNew)
    (hloadH : heiLoad storeH bh = some h)
    (hUK : (storeH.filter (fun x => x.UKPRN == h.UKPRN)).length ≤ 1)
    (hNm : ∀ x ∈ storeH, x.UKPRN = h.UKPRN → x.he_name = h.he_name)
    (hloadE : entryLoad be = some en)
    (hE1 : (storeE.filter (fun x =>
        x.entry_id == entryAssignedId storeE en)).length ≤ 1) :
    add_hei storeH bh =
      .ok ⟨200, .message ("HEI " ++ h.he_name ++ " added successfully")⟩
        (heiMerge storeH h)
    ∧ get_hei_using_ukprn (heiMerge storeH h) h.UKPRN =
      .ok ⟨200, .heiJson h⟩ (heiMerge storeH h)
    ∧ bh.UKPRN = some h.UKPRN
    ∧ bh.he_name = some h.he_name
    ∧ bh.region = some h.region
    ∧ (∀ v, bh.lat = some v → h.lat = v)
    ∧ (∀ v, bh.lon = some v → h.lon = v)
    ∧ add_entry storeE be =
      .ok ⟨200, .message ("Entry " ++ toString (entryAssignedId storeE en) ++
          " added successfully")⟩ (entryMerge storeE en)
    ∧ get_entry (entryMerge storeE en) (entryAssignedId storeE en) =
      .ok ⟨200, .entryJson (en.assign (entryAssignedId storeE en))⟩
        (entryMerge storeE en)
    ∧ (∀ j0, be.entry_id = some j0 → entryAssignedId storeE en = j0)
    ∧ be.academic_year = some en.academic_year
    ∧ be.classification = some en.classification
    ∧ be.category_marker = some en.category_marker
    ∧ be.category = some en.category
    ∧ be.value = some en.value
    ∧ be.UKPRN = some en.UKPRN
    ∧ be.he_name = some en.he_name := by
  have hspecH := heiLoad_spec hloadH
  have hspecE := entryLoad_spec hloadE
  have hgetH : get_hei_using_ukprn (heiMerge storeH h) h.UKPRN =
      .ok ⟨200, .heiJson h⟩ (heiMerge storeH h) := by
    by_cases hk : hasHeiKey storeH h.UKPRN h.he_name = true
    · obtain ⟨r0, hr0, hkey0⟩ := List.any_eq_true.mp hk
      have hPr0 : (r0.UKPRN == h.UKPRN) = true :=
        ((Bool.and_eq_true _ _).mp hkey0).1
      have hmem : r0 ∈ storeH.filter (fun x => x.UKPRN == h.UKPRN) :=
        List.mem_filter.mpr ⟨hr0, hPr0⟩
      have hfl : storeH.filter (fun x => x.UKPRN == h.UKPRN) = [r0] :=
        eq_singleton_of_length_le_one hUK hmem
      have hfilter : (heiMerge storeH h).filter
          (fun x => x.UKPRN == h.UKPRN) = [h] := by
        unfold heiMerge
        rw [if_pos hk]
        exact filter_map_replace_singleton hfl hkey0 (by simp)
          (fun x hx => ((Bool.and_eq_true _ _).mp hx).1)
      unfold get_hei_using_ukprn heiByUkprn
      rw [hfilter]
      rfl
    · have hfl : storeH.filter (fun x => x.UKPRN == h.UKPRN) = [] := by
        rw [List.filter_eq_nil_iff]
        intro x hx hP
        apply hk
        unfold hasHeiKey
        rw [List.any_eq_true]
        refine ⟨x, hx, ?_⟩
        rw [Bool.and_eq_true]
        refine ⟨hP, ?_⟩
        rw [beq_iff_eq]
        exact hNm x hx (beq_iff_eq.mp hP)
      unfold get_hei_using_ukprn heiByUkprn heiMerge
      rw [if_neg hk, List.filter_append, hfl]
      simp [scalarOne]
  have hgetE : get_entry (entryMerge storeE en) (entryAssignedId storeE en) =
      .ok ⟨200, .entryJson (en.assign (entryAssignedId storeE en))⟩
        (entryMerge storeE en) := by
    cases hid : en.entry_id with
    | some j =>
        have ha : entryAssignedId storeE en = j := by
          simp [entryAssignedId, hid]
        rw [ha] at hE1 ⊢
        by_cases hk : storeE.any (fun x => x.entry_id == j) = true
        · obtain ⟨r0, hr0, hkey0⟩ := List.any_eq_true.mp hk
          have hmem : r0 ∈ storeE.filter (fun x => x.entry_id == j) :=
            List.mem_filter.mpr ⟨hr0, hkey0⟩
          have hfl : storeE.filter (fun x => x.entry_id == j) = [r0] :=
            eq_singleton_of_length_le_one hE1 hmem
          have hfilter : (entryMerge storeE en).filter
              (fun x => x.entry_id == j) = [en.assign j] := by
            simp only [entryMerge, hid, if_pos hk]
            exact filter_map_replace_singleton hfl hkey0
              (by simp [EntryNew.assign]) (fun x hx => hx)
          unfold get_entry entryById
          rw [hfilter]
          rfl
        · have hfl : storeE.filter (fun x => x.entry_id == j) = [] := by
            rw [List.filter_eq_nil_iff]
            intro x hx hP
            exact absurd (List.any_eq_true.mpr ⟨x, hx, hP⟩) hk
          unfold get_entry entryById
          simp only [entryMerge, hid, if_neg hk]
          rw [List.filter_append, hfl]
          simp [scalarOne, EntryNew.assign]
    | none =>
        have ha : entryAssignedId storeE en = nextRowId storeE := by
          simp [entryAssignedId, hid]
        rw [ha]
        unfold get_entry entryById
        simp only [entryMerge, hid]
        rw [List.filter_append, filter_nextRowId_nil]
        simp [scalarOne, EntryNew.assign]
  refine ⟨by simp [add_hei, hloadH], hgetH, hspecH.1, hspecH.2.1,
    hspecH.2.2.1, hspecH.2.2.2.1, hspecH.2.2.2.2,
    by simp [add_entry, hloadE], hgetE, ?_, hspecE.2.1, hspecE.2.2.1,
    hspecE.2.2.2.1, hspecE.2.2.2.2.1, hspecE.2.2.2.2.2.1,
    hspecE.2.2.2.2.2.2.1, hspecE.2.2.2.2.2.2.2⟩
  intro j0 hj
  simp [entryAssignedId, hspecE.1, hj]

/-- The spec scenario's POST body for `/hei`. -/
def scenarioHeiBody : HeiJson :=
  { UKPRN := some 11111111, he_name := some "University of Me",
    region := some "London" }

/-- The row the scenario's POST creates. -/
def scenarioHei : HEI := ⟨11111111, "University of Me", "London", none, none⟩

/-- A valid POST body for `/entry`. -/
def scenarioEntryBody : EntryJson :=
  { entry_id := some 9, academic_year := some "y", classification := some "c",
    category_marker := some "m", category := some "g", value := some "v",
    UKPRN := some 11111111, he_name := some "University of Me" }

/-- The instance `scenarioEntryBody` loads to. -/
def scenarioEntryNew : EntryNew :=
  { entry_id := some 9, academic_year := "y", classification := "c",
    category_marker := "m", category := "g", value := "v",
    UKPRN := 11111111, he_name := "University of Me" }

/-- Witness for C3: the spec's scenario — POST
`{"UKPRN": 11111111, "he_name": "University of Me", "region": "London"}`
then GET `/hei/11111111`. -/
theorem claim3_witness :
    heiLoad [] scenarioHeiBody = some scenarioHei ∧
    add_hei [] scenarioHeiBody =
      .ok ⟨200, .message "HEI University of Me added successfully"⟩
        [scenarioHei] ∧
    get_hei_using_ukprn [scenarioHei] 11111111 =
      .ok ⟨200, .heiJson scenarioHei⟩ [scenarioHei] :=
  ⟨by decide,
    (claim3_post_then_get_roundtrip [] [] scenarioHeiBody scenarioEntryBody
      scenarioHei scenarioEntryNew
      (by decide) (by decide) (by decide) (by decide) (by decide)).1,
    (claim3_post_then_get_roundtrip [] [] scenarioHeiBody scenarioEntryBody
      scenarioHei scenarioEntryNew
      (by decide) (by decide) (by decide) (by decide) (by decide)).2.1⟩

/-- C7: on PUT the loaded body's key wins — the merged row carries the
body's key (when the body-key row already exists, the load adopts it and
unsubmitted optional fields keep its values), and the success message
reports the post-update key, not the path key; the instance synthesized
for a missing key is seeded with the path key. -/
theorem claim7_put_body_key_wins (storeH : List HEI) (storeE : List Entry)
    (u i j : Int) (bh : HeiJson) (be : EntryJson) (hei : HEI) (en : EntryNew)
    (hloadH : heiLoad storeH bh = some hei) (hneH : hei.UKPRN ≠ u)
    (hloadE : entryLoad be = some en) (hid : en.entry_id = some j)
    (hneE : j ≠ i) :
    (heiSynth u).UKPRN = some u
    ∧ (entrySynth i).entry_id = some i
    ∧ (heiByUkprn storeH u ≠ .multiple →
        hei_update .PUT false storeH u bh =
          .ok ⟨200, .message ("HEI with UKPRN " ++ toString hei.UKPRN ++
              " updated successfully")⟩ (heiMerge storeH hei)
        ∧ hei ∈ heiMerge storeH hei)
    ∧ (entryById storeE i ≠ .multiple →
        entry_update .PUT false storeE i be =
          .ok ⟨200, .message ("Entry with entry_id " ++ toString j ++
              " updated successfully")⟩ (entryMerge storeE en)
        ∧ en.assign j ∈ entryMerge storeE en) := by
  refine ⟨rfl, rfl, ?_, ?_⟩
  · intro hnm
    refine ⟨?_, mem_heiMerge storeH hei⟩
    cases hb : heiByUkprn storeH u with
    | multiple => exact absurd hb hnm
    | noResult => simp [hei_update, hb, hei_update_tail, hloadH]
    | found h => simp [hei_update, hb, hei_update_tail, hloadH]
  · intro hnm
    have hmem : en.assign j ∈ entryMerge storeE en := by
      have hm := mem_entryMerge storeE en
      rwa [show entryAssignedId storeE en = j by
        simp [entryAssignedId, hid]] at hm
    refine ⟨?_, hmem⟩
    cases hb : entryById storeE i with
    | multiple => exact absurd hb hnm
    | noResult =>
        simp [entry_update, hb, entry_update_tail, hloadE, pyStrOptInt, hid]
    | found e =>
        simp [entry_update, hb, entry_update_tail, hloadE, pyStrOptInt, hid]

/-- Witness for C7: PUT to path key 5 with a body keyed 8 stores the row
under 8 and reports 8 in the message. -/
theorem claim7_witness :
    heiLoad [] { UKPRN := some 8, he_name := some "X", region := some "R" } =
      some ⟨8, "X", "R", none, none⟩ ∧
    hei_update .PUT false [] 5
        { UKPRN := some 8, he_name := some "X", region := some "R" } =
      .ok ⟨200, .message "HEI with UKPRN 8 updated successfully"⟩
        [⟨8, "X", "R", none, none⟩] :=
  ⟨by decide,
    ((claim7_put_body_key_wins [] [] 5 6 7
      { UKPRN := some 8, he_name := some "X", region := some "R" }
      { entry_id := some 7, academic_year := some "y",
        classification := some "c", category_marker := some "m",
        category := some "g", value := some "v", UKPRN := some 8,
        he_name := some "X" }
      ⟨8, "X", "R", none, none⟩
      { entry_id := some 7, academic_year := "y", classification := "c",
        category_marker := "m", category := "g", value := "v", UKPRN := 8,
        he_name := "X" }
      (by decide) (by decide) (by decide) (by decide) (by decide)).2.2.1
      (by decide)).1⟩

/-- Witness for the amended C10 at the two concrete duplicate rows. -/
theorem claim10_witness :
    heiByUkprn [hei1A, hei1B] 1 = .multiple
    ∧ delete_hei_using_ukprn false [hei1A, hei1B] 1 =
      .ok ⟨404, .message "HEI with UKPRN 1 not found."⟩ [hei1A, hei1B] :=
  ⟨by decide,
    (claim10_amended_multiple_results [hei1A, hei1B] 1 {} .PUT false
      (by decide)).2.2⟩

end Hesa
